import Mathlib

/-!
A shallow embedding of the Wanderlust travel-itinerary chatbot
(src/wanderlust.py) and proofs about its field-collection state machine
and its search-then-generate pipeline.

Python dictionaries over string keys are modelled as association lists
with insertion-order semantics; the two external capabilities (the
Tavily search tool and the Groq chat model) are modelled as explicit
function parameters returning `Except String _`, where the `error` case
models a raised exception carrying `str(e)`.  A `Calls` record counts
how many times each capability is invoked; the increment sits exactly at
the point of the corresponding `invoke` call in the source.
-/

namespace Wanderlust

/-- A Python `dict[str, str]`: an association list with unique keys in
insertion order. -/
abbrev Dict := List (String × String)

/-- Python `d.get(k)`: the value bound to `k`, if present. -/
def dictGet : Dict → String → Option String
  | [], _ => none
  | (k0, v0) :: rest, k => if k0 = k then some v0 else dictGet rest k

/-- Python `d.get(k, dflt)` for a dict whose values are plain strings. -/
def dictGetD (d : Dict) (k dflt : String) : String :=
  (dictGet d k).getD dflt

/-- Python `d[k] = v`: update the existing binding in place, else append. -/
def dictInsert : Dict → String → String → Dict
  | [], k, v => [(k, v)]
  | (k0, v0) :: rest, k, v =>
      if k0 = k then (k, v) :: rest else (k0, v0) :: dictInsert rest k v

/-- Python truthiness of an `Optional[str]`: `None` and `""` are falsy. -/
def is_truthy (o : Option String) : Prop :=
  match o with
  | some s => s ≠ ""
  | none => False

instance (o : Option String) : Decidable (is_truthy o) :=
  match o with
  | some s => (inferInstance : Decidable (s ≠ ""))
  | none => isFalse (fun h => h)

/-- Python `str.strip()`: drop leading and trailing whitespace, here per
`Char.isWhitespace`.  Defined over the character list by structural
recursion so that concrete instances are kernel-reducible. -/
def pyStrip (s : String) : String :=
  String.mk (((s.data.dropWhile Char.isWhitespace).reverse.dropWhile Char.isWhitespace).reverse)

/-- Python `str.lower()` on the ASCII inputs this program compares
(`Char.toLower` lowers exactly the ASCII uppercase range). -/
def pyLower (s : String) : String :=
  String.mk (s.data.map Char.toLower)

/-- A chat message (`HumanMessage` / `AIMessage` from the source). -/
inductive Message where
  | human (content : String)
  | ai (content : String)
deriving DecidableEq

/-- The `AgentState` TypedDict of the source (line 54). -/
structure AgentState where
  messages : List Message
  user_info : Dict
  missing_fields : List String
  search_results : Option String
  itinerary : Option String
deriving DecidableEq

/-- Counts of invocations of the two external capabilities. -/
structure Calls where
  searches : Nat
  completions : Nat
deriving DecidableEq

/-- `ORDERED_FIELDS` (source line 21). -/
def ORDERED_FIELDS : List String :=
  ["destination", "budget", "activities", "duration", "accommodation"]

/-- `QUESTIONS_MAP` (source line 29). -/
def QUESTIONS_MAP : Dict :=
  [("destination", "🌍 Where would you like to travel?"),
   ("budget", "💰 What is your budget for this trip?"),
   ("activities", "🤸 What kind of activities do you prefer? (e.g., adventure, relaxation, sightseeing)"),
   ("duration", "⏳ How many days do you plan to stay?"),
   ("accommodation", "🏨 Do you prefer hotels, hostels, or Airbnbs?")]

/-- `INITIAL_MESSAGE` (source line 37). -/
def INITIAL_MESSAGE : String :=
  "👋 Welcome! Type `START` to begin planning your travel itinerary."

/-- `START_CONFIRMATION` (source line 38): a fixed greeting plus the
question for the first ordered field. -/
def START_CONFIRMATION : String :=
  "🚀 Great! Let\x27s plan your trip. " ++ dictGetD QUESTIONS_MAP (ORDERED_FIELDS.headD "") ""

/-- `RESTART_MESSAGE` (source line 39). -/
def RESTART_MESSAGE : String :=
  "✅ Restarted! Type `START` to begin again."

/-- `INVALID_START_MESSAGE` (source line 40). -/
def INVALID_START_MESSAGE : String :=
  "❗ Please type `START` to begin the travel itinerary process."

/-- `ITINERARY_READY_MESSAGE` (source line 41). -/
def ITINERARY_READY_MESSAGE : String :=
  "✅ Your travel itinerary is ready!"

/-- `process_user_input` (source line 63).  Reads the last message; if it
is not a human message, or no fields are missing, the node returns no
update.  Otherwise it binds the stripped text of the last message to the
first missing field and drops that field.  (The source indexes
`state.messages[-1]`, so the list is assumed non-empty in every reachable
call; the `_` arm folds that degenerate case into the no-update case.) -/
def process_user_input (st : AgentState) : AgentState :=
  match st.messages.getLast? with
  | some (Message.human content) =>
      let user_response := pyStrip content
      match st.missing_fields with
      | [] => st
      | field_to_update :: updated_missing_fields =>
          { st with
              user_info := dictInsert st.user_info field_to_update user_response,
              missing_fields := updated_missing_fields }
  | _ => st

/-- `ask_next_question` (source line 91): append the question for the
first missing field (the map lookup cannot miss for the five canonical
fields, so the `dictGetD` default is inert). -/
def ask_next_question (st : AgentState) : AgentState :=
  match st.missing_fields with
  | [] =>
      { st with messages :=
          st.messages ++ [Message.ai "Something went wrong, no more questions to ask."] }
  | next_field :: _ =>
      { st with messages :=
          st.messages ++ [Message.ai (dictGetD QUESTIONS_MAP next_field "")] }

/-- The search query built by `run_search` (source lines 113 to 131):
a base part naming the destination (default `anywhere`), then one clause
per optional answer that is present and truthy, joined by single spaces. -/
def search_query_of (user_info : Dict) : String :=
  let query_parts := ["Travel itinerary ideas for " ++ dictGetD user_info "destination" "anywhere"]
  let query_parts :=
    if is_truthy (dictGet user_info "duration") then
      query_parts ++ ["for about " ++ dictGetD user_info "duration" "" ++ " days."]
    else query_parts
  let query_parts :=
    if is_truthy (dictGet user_info "budget") then
      query_parts ++ ["User\x27s budget is described as: \x27" ++ dictGetD user_info "budget" "" ++ "\x27."]
    else query_parts
  let query_parts :=
    if is_truthy (dictGet user_info "activities") then
      query_parts ++ ["User is looking for activities like: \x27" ++ dictGetD user_info "activities" "" ++ "\x27."]
    else query_parts
  let query_parts :=
    if is_truthy (dictGet user_info "accommodation") then
      query_parts ++ ["User\x27s accommodation preference is: \x27" ++ dictGetD user_info "accommodation" "" ++ "\x27."]
    else query_parts
  String.intercalate " " query_parts

/-- A search result item, modelling `getattr(doc, "page_content", str(doc))`. -/
structure PyDoc where
  page_content : Option String
  str_repr : String
deriving DecidableEq

/-- The text body of one search result item. -/
def doc_text (d : PyDoc) : String := d.page_content.getD d.str_repr

/-- The value shapes the search capability may return (source lines 137
to 144): a list of items, a dict (whose generic string conversion is
carried for the fallback), or any other value via its string conversion. -/
inductive SearchValue where
  | list (docs : List PyDoc)
  | dict (entries : Dict) (str_repr : String)
  | other (str_repr : String)
deriving DecidableEq

/-- The result normalization of `run_search` (source lines 137 to 144). -/
def normalize_search_results : SearchValue → String
  | SearchValue.list docs => String.intercalate "\n\n" (docs.map doc_text)
  | SearchValue.dict entries srep =>
      match dictGet entries "answer" with
      | some a => a
      | none =>
          match dictGet entries "result" with
          | some r => r
          | none => srep
  | SearchValue.other srep => srep

/-- `run_search` (source line 107): build the query, invoke the search
capability once, normalize the result; on a raised exception `e`, store
the sentinel string carrying `str(e)` instead of propagating. -/
def run_search (search : String → Except String SearchValue)
    (st : AgentState) (calls : Calls) : AgentState × Calls :=
  let search_query := search_query_of st.user_info
  let calls := { calls with searches := calls.searches + 1 }
  match search search_query with
  | Except.ok results =>
      ({ st with search_results := some (normalize_search_results results) }, calls)
  | Except.error e =>
      ({ st with search_results := some ("Search failed or timed out. Details: " ++ e) }, calls)

/-- A completion response, modelling `getattr(response, "content", str(response))`. -/
structure LMResponse where
  content : Option String
  str_repr : String
deriving DecidableEq

/-- The extracted text of a completion response. -/
def lm_text (r : LMResponse) : String := r.content.getD r.str_repr

/-- The itinerary prompt built by `generate_itinerary` (source lines 162
to 188), with the five preference fields substituted (default
`Not specified`) and the search results spliced between the fences. -/
def itinerary_prompt_text (user_info : Dict) (search_results : String) : String :=
  "\n    You are an expert travel planner. Create a detailed and engaging travel itinerary based on the following user preferences:\n    NOTE :- Do not go over the user budget.\n    \n    **User Preferences:**\n    - Destination: "
  ++ dictGetD user_info "destination" "Not specified"
  ++ "\n    - Duration: "
  ++ dictGetD user_info "duration" "Not specified"
  ++ " days\n    - Budget Description: \x27"
  ++ dictGetD user_info "budget" "Not specified"
  ++ "\x27\n    - Preferred Activities Description: \x27"
  ++ dictGetD user_info "activities" "Not specified"
  ++ "\x27\n    - Preferred Accommodation Description: \x27"
  ++ dictGetD user_info "accommodation" "Not specified"
  ++ "\x27\n\n    **Your Task:**\n    1.  **Interpret Preferences:** Carefully interpret the user\x27s descriptions for budget, activities, and accommodation.\n        * If the budget is descriptive (e.g., \x27moderate\x27, \x27budget-friendly\x27, \x27a bit flexible\x27, \x27around $X\x27), tailor suggestions to match that level for the specific destination. Avoid extreme high-cost or only free options unless explicitly requested. \x27Moderate\x27 usually implies a balance of value, comfort, and experiences.\n        * If activities are described generally (e.g., \x27mix of famous and offbeat\x27, \x27relaxing\x27, \x27cultural immersion\x27, \x27adventure\x27), create an itinerary that reflects this. A \x27mix\x27 should include popular landmarks and hidden gems. \x27Relaxing\x27 should include downtime.\n        * Interpret accommodation descriptions (e.g., \x27mid-range\x27, \x27cheap but clean\x27, \x27boutique hotel\x27) based on typical offerings at the destination.\n    2.  **Use Search Results:** Incorporate relevant and specific suggestions from the search results below, but *only* if they align with the interpreted user preferences. Do not blindly copy search results.\n    3.  **Create a Coherent Plan:** Structure the itinerary logically, often day-by-day. Include suggestions for specific activities, potential dining spots (matching budget), and estimated timings where appropriate.\n    4.  **Engaging Tone:** Present the itinerary in an exciting and appealing way.\n\n    **Supporting Search Results:**\n    ```\n    "
  ++ search_results
  ++ "\n    ```\n\n    **Generate the Itinerary:**\n    "

/-- `generate_itinerary` (source line 155): build the prompt, invoke the
completion capability once; on success store the extracted text as the
itinerary and append the banner message; on a raised exception `e` store
`none` and append the failure message carrying `str(e)`. -/
def generate_itinerary (complete : String → Except String LMResponse)
    (st : AgentState) (calls : Calls) : AgentState × Calls :=
  let search_results := st.search_results.getD "No search results available."
  let itinerary_prompt := itinerary_prompt_text st.user_info search_results
  let calls := { calls with completions := calls.completions + 1 }
  match complete itinerary_prompt with
  | Except.ok response =>
      let itinerary_content := lm_text response
      let final_message := Message.ai (ITINERARY_READY_MESSAGE ++ "\n\n" ++ itinerary_content)
      ({ st with itinerary := some itinerary_content,
                 messages := st.messages ++ [final_message] }, calls)
  | Except.error e =>
      let error_message :=
        Message.ai ("Sorry, I encountered an error while generating the itinerary. Details: " ++ e)
      ({ st with itinerary := none,
                 messages := st.messages ++ [error_message] }, calls)

/-- `should_ask_question_or_search` (source line 213). -/
def should_ask_question_or_search (st : AgentState) : String :=
  if st.missing_fields = [] then "run_search" else "ask_next_question"

/-- One invocation of the compiled graph (source lines 225 to 245):
entry point `process_user_input`, then the conditional edge to either
`ask_next_question` (then END) or `run_search` then `generate_itinerary`
(then END). -/
def travel_agent_invoke (search : String → Except String SearchValue)
    (complete : String → Except String LMResponse)
    (st : AgentState) (calls : Calls) : AgentState × Calls :=
  let st1 := process_user_input st
  if should_ask_question_or_search st1 = "run_search" then
    let out := run_search search st1 calls
    generate_itinerary complete out.1 out.2
  else
    (ask_next_question st1, calls)

/-- A Gradio chat history: pairs of (user text or `None`, assistant text). -/
abbrev History := List (Option String × String)

/-- The fresh state dictionary built by `handle_user_message` when no
state exists yet (source lines 254 to 261); the fallback reset (source
lines 327 to 333) builds the same dictionary. -/
def initial_agent_state : AgentState :=
  { messages := [Message.ai INITIAL_MESSAGE],
    user_info := [],
    missing_fields := [],
    search_results := none,
    itinerary := none }

/-- The four mutually exclusive branches of `handle_user_message`
(source lines 264, 273, 283 and 324), selected in source order from the
cleaned input and the current state dictionary. -/
inductive HandlerBranch where
  | startBranch
  | invalidStartBranch
  | processBranch
  | fallbackBranch
deriving DecidableEq

/-- The branch `handle_user_message` takes, mirroring the chained
`if`/`elif`/`else` conditions of source lines 264, 273, 283, 324. -/
def handler_branch (user_input : String) (st : AgentState) : HandlerBranch :=
  let user_input_cleaned := pyLower (pyStrip user_input)
  if user_input_cleaned = "start" ∧ st.missing_fields = [] then
    HandlerBranch.startBranch
  else if st.missing_fields = [] ∧ user_input_cleaned ≠ "start" then
    HandlerBranch.invalidStartBranch
  else if st.missing_fields ≠ [] ∨ is_truthy st.itinerary then
    HandlerBranch.processBranch
  else
    HandlerBranch.fallbackBranch

/-- The assistant text extracted after graph execution (source line
319): the content of the last message when it is an AI message. -/
def extract_last_ai (msgs : List Message) : String :=
  match msgs.getLast? with
  | some (Message.ai c) => c
  | _ => "Error: No response."

/-- The tuple returned by `handle_user_message` (history, state, cleared
textbox), extended with the instrumented capability-call counts. -/
structure TurnResult where
  history : History
  state : AgentState
  textbox : String
  calls : Calls
deriving DecidableEq

/-- `handle_user_message` (source line 250): initialize the state
dictionary if absent, then dispatch on the branch conditions.  The start
branch resets `user_info` and `missing_fields` and emits the start
confirmation; the invalid-start branch appends the reminder; the process
branch either short-circuits when an itinerary already exists with no
missing fields, or appends the human message and invokes the graph; the
fallback resets everything. -/
def handle_user_message (search : String → Except String SearchValue)
    (complete : String → Except String LMResponse)
    (user_input : String) (history : History)
    (current_state : Option AgentState) (calls : Calls) : TurnResult :=
  let st := current_state.getD initial_agent_state
  match handler_branch user_input st with
  | HandlerBranch.startBranch =>
      let st := { st with
        missing_fields := ORDERED_FIELDS,
        user_info := [],
        messages := [Message.ai START_CONFIRMATION] }
      { history := history ++ [(none, START_CONFIRMATION)],
        state := st, textbox := "", calls := calls }
  | HandlerBranch.invalidStartBranch =>
      let st := { st with
        messages := st.messages ++ [Message.human user_input, Message.ai INVALID_START_MESSAGE] }
      { history := history ++ [(some user_input, INVALID_START_MESSAGE)],
        state := st, textbox := "", calls := calls }
  | HandlerBranch.processBranch =>
      if is_truthy st.itinerary ∧ st.missing_fields = [] then
        { history := history ++
            [(some user_input, "Itinerary generated. Please click \x27Start Over\x27 to plan a new trip.")],
          state := st, textbox := "", calls := calls }
      else
        let st := { st with messages := st.messages ++ [Message.human user_input] }
        let out := travel_agent_invoke search complete st calls
        let ai_response := extract_last_ai out.1.messages
        { history := history ++ [(some user_input, ai_response)],
          state := out.1, textbox := "", calls := out.2 }
  | HandlerBranch.fallbackBranch =>
      { history := history ++ [(some user_input, "Something went wrong. Please type START to begin.")],
        state := initial_agent_state, textbox := "", calls := calls }

/-- `start_over` (source line 340): the Start Over button resets the
history and the state. -/
def start_over : History × AgentState × String :=
  ([(none, RESTART_MESSAGE)],
   { messages := [Message.ai RESTART_MESSAGE],
     user_info := [],
     missing_fields := [],
     search_results := none,
     itinerary := none },
   "")

/-- Feed a list of user inputs through `handle_user_message`, one turn at
a time, threading history, state and call counts. -/
def run_turns (search : String → Except String SearchValue)
    (complete : String → Except String LMResponse) :
    List String → TurnResult → TurnResult
  | [], tr => tr
  | i :: rest, tr =>
      run_turns search complete rest
        (handle_user_message search complete i tr.history (some tr.state) tr.calls)

/-- The session right after the very first turn, a `START` typed into a
fresh UI (chatbot preloaded with the welcome message, state `None`). -/
def initial_turn (search : String → Except String SearchValue)
    (complete : String → Except String LMResponse) : TurnResult :=
  handle_user_message search complete "START" [(none, INITIAL_MESSAGE)] none
    { searches := 0, completions := 0 }

/-- The clause contributed by one optional answer, following the amended
claim wording: a clause appears exactly when the answer is present and
non-empty; an absent or empty answer contributes nothing. -/
def query_clause (d : Dict) (k : String) (render : String → String) : List String :=
  match dictGet d k with
  | some s => if s = "" then [] else [render s]
  | none => []

/-- The search query as the amended claim describes it: a base part that
names the destination (or the fixed default `anywhere` when absent),
followed by the optional clauses in the fixed order duration, budget,
activities, accommodation, joined by single spaces. -/
def query_spec (d : Dict) : String :=
  String.intercalate " "
    (["Travel itinerary ideas for " ++ (dictGet d "destination").getD "anywhere"]
      ++ query_clause d "duration" (fun s => "for about " ++ s ++ " days.")
      ++ query_clause d "budget" (fun s => "User\x27s budget is described as: \x27" ++ s ++ "\x27.")
      ++ query_clause d "activities" (fun s => "User is looking for activities like: \x27" ++ s ++ "\x27.")
      ++ query_clause d "accommodation" (fun s => "User\x27s accommodation preference is: \x27" ++ s ++ "\x27."))

/-- A search capability that always succeeds with a plain text result. -/
def demo_search : String → Except String SearchValue :=
  fun _ => Except.ok (SearchValue.other "Top sights listed.")

/-- A completion capability that always succeeds with a fixed plan. -/
def demo_complete : String → Except String LMResponse :=
  fun _ => Except.ok { content := some "Day 1: arrive and explore.", str_repr := "resp" }

/-- A search capability that always raises. -/
def failing_search : String → Except String SearchValue :=
  fun _ => Except.error "HTTPError 500"

/-- A completion capability that always raises. -/
def failing_complete : String → Except String LMResponse :=
  fun _ => Except.error "rate limit exceeded"

/-- The scripted five-answer session of the scenario, with a padded
first answer to exhibit the stripping behaviour. -/
def c1_run : TurnResult :=
  run_turns demo_search demo_complete
    [" Paris ", "moderate", "sightseeing and food", "5", "mid-range hotel"]
    (initial_turn demo_search demo_complete)

/-- A collecting-phase state whose latest message carries padded text. -/
def c3_state_a : AgentState :=
  { messages := [Message.ai "q", Message.human " Paris "],
    user_info := [],
    missing_fields := ["destination"],
    search_results := none,
    itinerary := none }

/-- A state with nothing left to collect and a trailing human message. -/
def c3_state_b : AgentState :=
  { messages := [Message.ai "q", Message.human "hello"],
    user_info := [("destination", "Paris")],
    missing_fields := [],
    search_results := none,
    itinerary := none }

/-- A mid-collection state: destination answered, four fields pending. -/
def c8_state : AgentState :=
  { messages := [Message.ai "q"],
    user_info := [("destination", "Paris")],
    missing_fields := ["budget", "activities", "duration", "accommodation"],
    search_results := none,
    itinerary := none }

/-- A state one answer away from completion. -/
def last_field_state : AgentState :=
  { messages := [Message.ai "q"],
    user_info := [("destination", "Paris"), ("budget", "moderate"),
                  ("activities", "sightseeing and food"), ("duration", "5")],
    missing_fields := ["accommodation"],
    search_results := none,
    itinerary := none }

/-! ### Dictionary lemmas -/

theorem dictGet_insert_self (d : Dict) (k v : String) :
    dictGet (dictInsert d k v) k = some v := by
  induction d with
  | nil => simp [dictInsert, dictGet]
  | cons head rest ih =>
      obtain ⟨k0, v0⟩ := head
      by_cases h : k0 = k
      · simp [dictInsert, h, dictGet]
      · simp [dictInsert, h, dictGet, ih]

theorem dictGet_insert_ne (d : Dict) (k v k2 : String) (h : k ≠ k2) :
    dictGet (dictInsert d k v) k2 = dictGet d k2 := by
  induction d with
  | nil => simp [dictInsert, dictGet, h]
  | cons head rest ih =>
      obtain ⟨k0, v0⟩ := head
      by_cases h0 : k0 = k
      · subst h0
        simp [dictInsert, dictGet, h]
      · simp only [dictInsert, if_neg h0, dictGet]
        split
        · rfl
        · exact ih

/-! ### Node preservation lemmas: which state fields each node leaves alone -/

theorem run_search_user_info (search : String → Except String SearchValue)
    (st : AgentState) (calls : Calls) :
    (run_search search st calls).1.user_info = st.user_info := by
  rcases h : search (search_query_of st.user_info) with v | e <;> simp [run_search, h]

theorem run_search_missing (search : String → Except String SearchValue)
    (st : AgentState) (calls : Calls) :
    (run_search search st calls).1.missing_fields = st.missing_fields := by
  rcases h : search (search_query_of st.user_info) with v | e <;> simp [run_search, h]

theorem run_search_messages (search : String → Except String SearchValue)
    (st : AgentState) (calls : Calls) :
    (run_search search st calls).1.messages = st.messages := by
  rcases h : search (search_query_of st.user_info) with v | e <;> simp [run_search, h]

theorem run_search_sets_results (search : String → Except String SearchValue)
    (st : AgentState) (calls : Calls) :
    ∃ s, (run_search search st calls).1.search_results = some s := by
  rcases h : search (search_query_of st.user_info) with e | v
  · exact ⟨"Search failed or timed out. Details: " ++ e, by simp [run_search, h]⟩
  · exact ⟨normalize_search_results v, by simp [run_search, h]⟩

theorem run_search_calls (search : String → Except String SearchValue)
    (st : AgentState) (calls : Calls) :
    (run_search search st calls).2 = ⟨calls.searches + 1, calls.completions⟩ := by
  rcases h : search (search_query_of st.user_info) with v | e <;> simp [run_search, h]

theorem generate_itinerary_user_info (complete : String → Except String LMResponse)
    (st : AgentState) (calls : Calls) :
    (generate_itinerary complete st calls).1.user_info = st.user_info := by
  rcases h : complete (itinerary_prompt_text st.user_info
      (st.search_results.getD "No search results available.")) with r | e <;>
    simp [generate_itinerary, h]

theorem generate_itinerary_missing (complete : String → Except String LMResponse)
    (st : AgentState) (calls : Calls) :
    (generate_itinerary complete st calls).1.missing_fields = st.missing_fields := by
  rcases h : complete (itinerary_prompt_text st.user_info
      (st.search_results.getD "No search results available.")) with r | e <;>
    simp [generate_itinerary, h]

theorem generate_itinerary_results (complete : String → Except String LMResponse)
    (st : AgentState) (calls : Calls) :
    (generate_itinerary complete st calls).1.search_results = st.search_results := by
  rcases h : complete (itinerary_prompt_text st.user_info
      (st.search_results.getD "No search results available.")) with r | e <;>
    simp [generate_itinerary, h]

theorem generate_itinerary_calls (complete : String → Except String LMResponse)
    (st : AgentState) (calls : Calls) :
    (generate_itinerary complete st calls).2 = ⟨calls.searches, calls.completions + 1⟩ := by
  rcases h : complete (itinerary_prompt_text st.user_info
      (st.search_results.getD "No search results available.")) with r | e <;>
    simp [generate_itinerary, h]

theorem ask_next_question_user_info (st : AgentState) :
    (ask_next_question st).user_info = st.user_info := by
  rcases h : st.missing_fields with _ | ⟨f, rest⟩ <;> simp [ask_next_question, h]

theorem ask_next_question_missing (st : AgentState) :
    (ask_next_question st).missing_fields = st.missing_fields := by
  rcases h : st.missing_fields with _ | ⟨f, rest⟩ <;> simp [ask_next_question, h]

/-! ### Behaviour of `process_user_input` -/

theorem process_user_input_collect (st : AgentState) (f : String) (rest : List String)
    (c : String) (hlast : st.messages.getLast? = some (Message.human c))
    (hm : st.missing_fields = f :: rest) :
    process_user_input st =
      { st with user_info := dictInsert st.user_info f (pyStrip c),
                missing_fields := rest } := by
  simp [process_user_input, hlast, hm]

theorem process_user_input_noop (st : AgentState) (c : String)
    (hlast : st.messages.getLast? = some (Message.human c))
    (hm : st.missing_fields = []) :
    process_user_input st = st := by
  simp [process_user_input, hlast, hm]

/-! ### Branch selection lemmas for the message handler -/

theorem handler_branch_start (input : String) (st : AgentState)
    (hm : st.missing_fields = []) (hs : pyLower (pyStrip input) = "start") :
    handler_branch input st = HandlerBranch.startBranch := by
  simp only [handler_branch]
  rw [if_pos ⟨hs, hm⟩]

theorem handler_branch_invalid (input : String) (st : AgentState)
    (hm : st.missing_fields = []) (hne : pyLower (pyStrip input) ≠ "start") :
    handler_branch input st = HandlerBranch.invalidStartBranch := by
  simp only [handler_branch]
  rw [if_neg (fun hh => hne hh.1), if_pos ⟨hm, hne⟩]

theorem handler_branch_process (input : String) (st : AgentState)
    (h : st.missing_fields ≠ []) :
    handler_branch input st = HandlerBranch.processBranch := by
  simp only [handler_branch]
  rw [if_neg (fun hh => h hh.2), if_neg (fun hh => h hh.1), if_pos (Or.inl h)]

/-! ### Turn-level unfolding lemmas -/

theorem start_turn (search : String → Except String SearchValue)
    (complete : String → Except String LMResponse)
    (input : String) (history : History) (st : AgentState) (calls : Calls)
    (hm : st.missing_fields = []) (hs : pyLower (pyStrip input) = "start") :
    handle_user_message search complete input history (some st) calls =
      { history := history ++ [(none, START_CONFIRMATION)],
        state := { st with
                   missing_fields := ORDERED_FIELDS,
                   user_info := [],
                   messages := [Message.ai START_CONFIRMATION] },
        textbox := "", calls := calls } := by
  simp only [handle_user_message, Option.getD_some]
  rw [handler_branch_start input st hm hs]

theorem invalid_turn (search : String → Except String SearchValue)
    (complete : String → Except String LMResponse)
    (input : String) (history : History) (st : AgentState) (calls : Calls)
    (hm : st.missing_fields = []) (hne : pyLower (pyStrip input) ≠ "start") :
    handle_user_message search complete input history (some st) calls =
      { history := history ++ [(some input, INVALID_START_MESSAGE)],
        state := { st with
                   messages := st.messages ++
                     [Message.human input, Message.ai INVALID_START_MESSAGE] },
        textbox := "", calls := calls } := by
  simp only [handle_user_message, Option.getD_some]
  rw [handler_branch_invalid input st hm hne]

theorem process_turn (search : String → Except String SearchValue)
    (complete : String → Except String LMResponse)
    (input : String) (history : History) (st : AgentState) (calls : Calls)
    (h : st.missing_fields ≠ []) :
    handle_user_message search complete input history (some st) calls =
      (let st2 : AgentState := { st with messages := st.messages ++ [Message.human input] }
       let out := travel_agent_invoke search complete st2 calls
       { history := history ++ [(some input, extract_last_ai out.1.messages)],
         state := out.1, textbox := "", calls := out.2 }) := by
  simp only [handle_user_message, Option.getD_some]
  rw [handler_branch_process input st h]
  rw [if_neg (fun hh => h hh.2)]

theorem turn_binds (search : String → Except String SearchValue)
    (complete : String → Except String LMResponse)
    (input : String) (history : History) (st : AgentState) (calls : Calls)
    (f : String) (rest : List String)
    (hm : st.missing_fields = f :: rest) :
    ((handle_user_message search complete input history (some st) calls).state.user_info
        = dictInsert st.user_info f (pyStrip input)) ∧
    ((handle_user_message search complete input history (some st) calls).state.missing_fields
        = rest) := by
  rw [process_turn search complete input history st calls (by simp [hm])]
  have hp := process_user_input_collect
    { st with messages := st.messages ++ [Message.human input] } f rest input
    (List.getLast?_concat _) (by simpa using hm)
  simp only [travel_agent_invoke, hp, should_ask_question_or_search]
  rcases rest with _ | ⟨g, rest2⟩
  · simp [run_search_user_info, run_search_missing,
      generate_itinerary_user_info, generate_itinerary_missing]
  · simp [ask_next_question_user_info, ask_next_question_missing]

/-- Driving any sequence of user inputs through consecutive turns while
at least as many fields are missing: each turn binds the stripped input
to the next missing field, in order. -/
theorem run_turns_spec (search : String → Except String SearchValue)
    (complete : String → Except String LMResponse) :
    ∀ (inputs : List String) (tr : TurnResult),
    inputs.length ≤ tr.state.missing_fields.length →
    ((run_turns search complete inputs tr).state.user_info
        = List.foldl (fun d p => dictInsert d p.1 p.2) tr.state.user_info
            (List.zip tr.state.missing_fields (inputs.map pyStrip))) ∧
    ((run_turns search complete inputs tr).state.missing_fields
        = tr.state.missing_fields.drop inputs.length) := by
  intro inputs
  induction inputs with
  | nil => intro tr _; simp [run_turns]
  | cons i is ih =>
      intro tr hlen
      rcases hm : tr.state.missing_fields with _ | ⟨f, fs⟩
      · rw [hm] at hlen; simp at hlen
      · have hb := turn_binds search complete i tr.history tr.state tr.calls f fs hm
        have hlen2 : is.length ≤
            (handle_user_message search complete i tr.history (some tr.state) tr.calls).state.missing_fields.length := by
          rw [hb.2]
          rw [hm] at hlen
          simpa using hlen
        have hrec := ih
          (handle_user_message search complete i tr.history (some tr.state) tr.calls) hlen2
        simp only [run_turns]
        rw [hrec.1, hrec.2, hb.1, hb.2]
        constructor
        · simp
        · simp

/-! ### Claim theorems -/

/-- C3 counterexample: the Answer Collector does not bind the supplied
text verbatim; surrounding whitespace is stripped before binding, so the
padded text ` Paris ` is stored as `Paris`. -/
theorem C3_counterexample :
    (process_user_input c3_state_a).user_info = [("destination", "Paris")] ∧
    (" Paris " : String) ≠ "Paris" := by
  constructor
  · decide
  · decide

/-- C3 (amended): when pending is non-empty and the latest message is a
user message, the Answer Collector binds the whitespace-stripped form of
the supplied text to the head pending field and removes exactly that
field; when pending is empty it leaves the state unchanged. -/
theorem C3_amended :
    (∀ (st : AgentState) (f : String) (rest : List String) (c : String),
        st.messages.getLast? = some (Message.human c) →
        st.missing_fields = f :: rest →
        process_user_input st =
          { st with user_info := dictInsert st.user_info f (pyStrip c),
                    missing_fields := rest }) ∧
    (∀ (st : AgentState) (c : String),
        st.messages.getLast? = some (Message.human c) →
        st.missing_fields = [] →
        process_user_input st = st) :=
  ⟨process_user_input_collect, process_user_input_noop⟩

/-- C3 witness: the amended contract evaluated on the two concrete
states, one collecting and one with nothing pending. -/
theorem C3_witness :
    process_user_input c3_state_a =
      { c3_state_a with
        user_info := dictInsert c3_state_a.user_info "destination" (pyStrip " Paris "),
        missing_fields := [] } ∧
    process_user_input c3_state_b = c3_state_b :=
  ⟨C3_amended.1 c3_state_a "destination" [] " Paris " rfl rfl,
   C3_amended.2 c3_state_b "hello" rfl rfl⟩

/-- C4: if the search capability raises with description `e`, the
Recommendation Fetcher returns normally and stores the sentinel text
that states the search failed and carries `e`. -/
theorem C4_search_failure_sentinel (search : String → Except String SearchValue)
    (st : AgentState) (calls : Calls) (e : String)
    (hs : ∀ q, search q = Except.error e) :
    (run_search search st calls).1.search_results
      = some ("Search failed or timed out. Details: " ++ e) := by
  simp [run_search, hs]

/-- C4 witness: the sentinel produced by a concrete raising capability. -/
theorem C4_witness :
    (∀ q, failing_search q = Except.error "HTTPError 500") ∧
    (run_search failing_search last_field_state ⟨0, 0⟩).1.search_results
      = some ("Search failed or timed out. Details: " ++ "HTTPError 500") :=
  ⟨fun _ => rfl,
   C4_search_failure_sentinel failing_search last_field_state ⟨0, 0⟩ "HTTPError 500"
     (fun _ => rfl)⟩

/-- C6 counterexample: with `duration` present but equal to the empty
string, no duration clause is appended - the query is exactly the bare
base part - contradicting the claim that a clause is appended whenever
the answer is present, including when it is the empty string. -/
theorem C6_counterexample :
    search_query_of [("destination", "Paris"), ("duration", "")]
      = "Travel itinerary ideas for Paris" ∧
    dictGet [("destination", "Paris"), ("duration", "")] "duration" = some "" := by
  constructor
  · decide
  · decide

set_option maxHeartbeats 1000000 in
/-- C6 (amended): the query names the destination (or the fixed default
`anywhere` when absent) and appends a descriptive clause for duration,
budget, activities and accommodation exactly when that answer is present
and non-empty; absent or empty answers contribute no clause and no
placeholder. -/
theorem C6_amended (d : Dict) : search_query_of d = query_spec d := by
  unfold search_query_of query_spec query_clause dictGetD
  rcases h1 : dictGet d "duration" with _ | s1 <;>
  rcases h2 : dictGet d "budget" with _ | s2 <;>
  rcases h3 : dictGet d "activities" with _ | s3 <;>
  rcases h4 : dictGet d "accommodation" with _ | s4 <;>
  simp only [h1, h2, h3, h4, Option.getD_some, Option.getD_none, is_truthy,
    if_false, if_true] <;>
  (try split_ifs) <;>
  tauto

/-- C7: the search-result normalization, case by case: list results are
joined with a blank line between item texts; an object with an `answer`
field yields that field; an object without `answer` but with `result`
yields that field; an object with neither falls back to its generic
string conversion; any other value yields its string conversion. -/
theorem C7_normalization :
    (∀ docs, normalize_search_results (SearchValue.list docs)
        = String.intercalate "\n\n" (docs.map doc_text)) ∧
    (∀ (entries : Dict) (srep a : String), dictGet entries "answer" = some a →
        normalize_search_results (SearchValue.dict entries srep) = a) ∧
    (∀ (entries : Dict) (srep r : String), dictGet entries "answer" = none →
        dictGet entries "result" = some r →
        normalize_search_results (SearchValue.dict entries srep) = r) ∧
    (∀ (entries : Dict) (srep : String), dictGet entries "answer" = none →
        dictGet entries "result" = none →
        normalize_search_results (SearchValue.dict entries srep) = srep) ∧
    (∀ srep, normalize_search_results (SearchValue.other srep) = srep) := by
  refine ⟨fun docs => rfl, ?_, ?_, ?_, fun srep => rfl⟩
  · intro entries srep a ha
    simp [normalize_search_results, ha]
  · intro entries srep r ha hr
    simp [normalize_search_results, ha, hr]
  · intro entries srep ha hr
    simp [normalize_search_results, ha, hr]

/-- C7 witness: each normalization case evaluated at a concrete value. -/
theorem C7_witness :
    normalize_search_results (SearchValue.list [⟨some "alpha", "d1"⟩, ⟨none, "d2"⟩])
      = String.intercalate "\n\n" (List.map doc_text [⟨some "alpha", "d1"⟩, ⟨none, "d2"⟩]) ∧
    normalize_search_results (SearchValue.dict [("answer", "A")] "srep") = "A" ∧
    normalize_search_results (SearchValue.dict [("result", "R")] "srep") = "R" ∧
    normalize_search_results (SearchValue.dict [("x", "y")] "srep") = "srep" ∧
    normalize_search_results (SearchValue.other "plain") = "plain" :=
  ⟨C7_normalization.1 _,
   C7_normalization.2.1 [("answer", "A")] "srep" "A" rfl,
   C7_normalization.2.2.1 [("result", "R")] "srep" "R" rfl rfl,
   C7_normalization.2.2.2.1 [("x", "y")] "srep" rfl rfl,
   C7_normalization.2.2.2.2 "plain"⟩

/-- C9: any non-start input while awaiting start (no missing fields, no
itinerary) leaves answers and pending unchanged, keeps the session in
the awaiting-start shape, and emits the fixed start reminder. -/
theorem C9_awaiting_start (search : String → Except String SearchValue)
    (complete : String → Except String LMResponse)
    (input : String) (history : History) (st : AgentState) (calls : Calls)
    (hm : st.missing_fields = []) (hit : st.itinerary = none)
    (hne : pyLower (pyStrip input) ≠ "start") :
    ((handle_user_message search complete input history (some st) calls).state.user_info
        = st.user_info) ∧
    ((handle_user_message search complete input history (some st) calls).state.missing_fields
        = []) ∧
    ((handle_user_message search complete input history (some st) calls).state.itinerary
        = none) ∧
    ((handle_user_message search complete input history (some st) calls).history
        = history ++ [(some input, INVALID_START_MESSAGE)]) := by
  rw [invalid_turn search complete input history st calls hm hne]
  exact ⟨rfl, hm, hit, rfl⟩

/-- C9 witness: a concrete non-start input against the fresh state. -/
theorem C9_witness :
    initial_agent_state.missing_fields = [] ∧
    initial_agent_state.itinerary = none ∧
    pyLower (pyStrip "hello") ≠ "start" ∧
    (((handle_user_message demo_search demo_complete "hello" [] (some initial_agent_state)
        ⟨0, 0⟩).state.user_info = initial_agent_state.user_info) ∧
     ((handle_user_message demo_search demo_complete "hello" [] (some initial_agent_state)
        ⟨0, 0⟩).state.missing_fields = []) ∧
     ((handle_user_message demo_search demo_complete "hello" [] (some initial_agent_state)
        ⟨0, 0⟩).state.itinerary = none) ∧
     ((handle_user_message demo_search demo_complete "hello" [] (some initial_agent_state)
        ⟨0, 0⟩).history = [] ++ [(some "hello", INVALID_START_MESSAGE)])) :=
  ⟨rfl, rfl, by decide,
   C9_awaiting_start demo_search demo_complete "hello" [] initial_agent_state ⟨0, 0⟩
     rfl rfl (by decide)⟩

/-- C10: the final unexpected-state fallback branch of the message
handler never fires: for every input and state it is not selected, and
in particular with no missing fields and no itinerary the input is
handled by the start branch or by the invalid-start reminder branch. -/
theorem C10_fallback_unreachable :
    (∀ (input : String) (st : AgentState),
        handler_branch input st ≠ HandlerBranch.fallbackBranch) ∧
    (∀ (input : String) (st : AgentState),
        st.missing_fields = [] → st.itinerary = none →
        handler_branch input st = HandlerBranch.startBranch ∨
        handler_branch input st = HandlerBranch.invalidStartBranch) := by
  constructor
  · intro input st
    unfold handler_branch
    by_cases h1 : pyLower (pyStrip input) = "start" ∧ st.missing_fields = []
    · simp [h1]
    · rw [if_neg h1]
      by_cases h2 : st.missing_fields = [] ∧ pyLower (pyStrip input) ≠ "start"
      · simp [h2]
      · rw [if_neg h2]
        have h3 : st.missing_fields ≠ [] ∨ is_truthy st.itinerary := by
          by_cases hm : st.missing_fields = []
          · exfalso
            by_cases hc : pyLower (pyStrip input) = "start"
            · exact h1 ⟨hc, hm⟩
            · exact h2 ⟨hm, hc⟩
          · exact Or.inl hm
        rw [if_pos h3]
        simp
  · intro input st hm _
    by_cases hc : pyLower (pyStrip input) = "start"
    · exact Or.inl (handler_branch_start input st hm hc)
    · exact Or.inr (handler_branch_invalid input st hm hc)

/-- C10 witness: the dichotomy evaluated at a concrete input and the
fresh state. -/
theorem C10_witness :
    (handler_branch "hello" initial_agent_state ≠ HandlerBranch.fallbackBranch) ∧
    initial_agent_state.missing_fields = [] ∧
    initial_agent_state.itinerary = none ∧
    (handler_branch "hello" initial_agent_state = HandlerBranch.startBranch ∨
     handler_branch "hello" initial_agent_state = HandlerBranch.invalidStartBranch) :=
  ⟨C10_fallback_unreachable.1 "hello" initial_agent_state, rfl, rfl,
   C10_fallback_unreachable.2 "hello" initial_agent_state rfl rfl⟩

/-- C8: while collecting (pending non-empty), a user message whose
cleaned form is the start signal is consumed as the answer to the head
pending field per the field-binding contract: its stripped text is bound
to that field, every other answer is untouched, and pending becomes its
tail - no reset occurs. -/
theorem C8_start_as_answer (search : String → Except String SearchValue)
    (complete : String → Except String LMResponse)
    (input : String) (history : History) (st : AgentState) (calls : Calls)
    (f : String) (rest : List String)
    (hm : st.missing_fields = f :: rest)
    (hs : pyLower (pyStrip input) = "start") :
    (dictGet (handle_user_message search complete input history (some st) calls).state.user_info f
        = some (pyStrip input)) ∧
    (∀ k, k ≠ f →
        dictGet (handle_user_message search complete input history (some st) calls).state.user_info k
          = dictGet st.user_info k) ∧
    ((handle_user_message search complete input history (some st) calls).state.missing_fields
        = rest) := by
  have hb := turn_binds search complete input history st calls f rest hm
  refine ⟨?_, ?_, hb.2⟩
  · rw [hb.1]
    exact dictGet_insert_self st.user_info f (pyStrip input)
  · intro k hk
    rw [hb.1]
    exact dictGet_insert_ne st.user_info f (pyStrip input) k (Ne.symm hk)

/-- C8 witness: a second `START` typed mid-collection is bound to the
pending budget field and the earlier destination answer survives. -/
theorem C8_witness :
    c8_state.missing_fields = "budget" :: ["activities", "duration", "accommodation"] ∧
    pyLower (pyStrip "START") = "start" ∧
    dictGet (handle_user_message demo_search demo_complete "START" [] (some c8_state)
        ⟨0, 0⟩).state.user_info "budget" = some (pyStrip "START") ∧
    dictGet (handle_user_message demo_search demo_complete "START" [] (some c8_state)
        ⟨0, 0⟩).state.user_info "destination" = dictGet c8_state.user_info "destination" ∧
    (handle_user_message demo_search demo_complete "START" [] (some c8_state)
        ⟨0, 0⟩).state.missing_fields = ["activities", "duration", "accommodation"] :=
  ⟨rfl, by decide,
   (C8_start_as_answer demo_search demo_complete "START" [] c8_state ⟨0, 0⟩ "budget"
      ["activities", "duration", "accommodation"] rfl (by decide)).1,
   (C8_start_as_answer demo_search demo_complete "START" [] c8_state ⟨0, 0⟩ "budget"
      ["activities", "duration", "accommodation"] rfl (by decide)).2.1 "destination" (by decide),
   (C8_start_as_answer demo_search demo_complete "START" [] c8_state ⟨0, 0⟩ "budget"
      ["activities", "duration", "accommodation"] rfl (by decide)).2.2⟩

/-- C2: on the turn that empties pending (exactly one field left), the
handler invokes the graph, which runs the fetcher and then the
synthesizer within the same turn: exactly one search call and exactly
one completion call are issued, a search result is stored, and when the
completion succeeds the itinerary is stored and the final assistant
message of the turn begins with the fixed itinerary-ready banner. -/
theorem C2_final_turn_pipeline (search : String → Except String SearchValue)
    (complete : String → Except String LMResponse) (r : LMResponse)
    (input : String) (history : History) (st : AgentState) (calls : Calls) (f : String)
    (hm : st.missing_fields = [f])
    (hc : ∀ p, complete p = Except.ok r) :
    ((handle_user_message search complete input history (some st) calls).calls.searches
        = calls.searches + 1) ∧
    ((handle_user_message search complete input history (some st) calls).calls.completions
        = calls.completions + 1) ∧
    (∃ s, (handle_user_message search complete input history (some st) calls).state.search_results
        = some s) ∧
    ((handle_user_message search complete input history (some st) calls).state.itinerary
        = some (lm_text r)) ∧
    (∃ t, (handle_user_message search complete input history (some st) calls).history
        = history ++ [(some input, ITINERARY_READY_MESSAGE ++ t)]) := by
  rw [process_turn search complete input history st calls (by simp [hm])]
  have hp := process_user_input_collect
    { st with messages := st.messages ++ [Message.human input] } f [] input
    (List.getLast?_concat _) (by simpa using hm)
  simp only [travel_agent_invoke, hp, should_ask_question_or_search, eq_self_iff_true, if_true]
  rcases hsr : search (search_query_of (dictInsert st.user_info f (pyStrip input))) with e | v <;>
    simp only [run_search, hsr, generate_itinerary, hc, lm_text, extract_last_ai,
      List.getLast?_concat, Option.getD_some] <;>
    exact ⟨trivial, trivial, ⟨_, rfl⟩, trivial, ⟨"\n\n" ++ (r.content.getD r.str_repr),
      by rw [String.append_assoc]⟩⟩

/-- C2 witness: the scenario final turn with succeeding capabilities. -/
theorem C2_witness :
    last_field_state.missing_fields = ["accommodation"] ∧
    (∀ p, demo_complete p = Except.ok
      { content := some "Day 1: arrive and explore.", str_repr := "resp" }) ∧
    (((handle_user_message demo_search demo_complete "mid-range hotel" [] (some last_field_state)
        ⟨0, 0⟩).calls.searches = 0 + 1) ∧
     ((handle_user_message demo_search demo_complete "mid-range hotel" [] (some last_field_state)
        ⟨0, 0⟩).calls.completions = 0 + 1) ∧
     (∃ s, (handle_user_message demo_search demo_complete "mid-range hotel" [] (some last_field_state)
        ⟨0, 0⟩).state.search_results = some s) ∧
     ((handle_user_message demo_search demo_complete "mid-range hotel" [] (some last_field_state)
        ⟨0, 0⟩).state.itinerary = some (lm_text
          { content := some "Day 1: arrive and explore.", str_repr := "resp" })) ∧
     (∃ t, (handle_user_message demo_search demo_complete "mid-range hotel" [] (some last_field_state)
        ⟨0, 0⟩).history = [] ++ [(some "mid-range hotel", ITINERARY_READY_MESSAGE ++ t)])) :=
  ⟨rfl, fun _ => rfl,
   C2_final_turn_pipeline demo_search demo_complete
     { content := some "Day 1: arrive and explore.", str_repr := "resp" }
     "mid-range hotel" [] last_field_state ⟨0, 0⟩ "accommodation" rfl (fun _ => rfl)⟩

/-- C5: if the completion capability raises with description `e` on the
final turn, the synthesizer does not propagate: the stored itinerary is
left unset, pending stays empty (the session is terminal until an
explicit start), and the assistant message of the turn states that
generation failed and carries `e`; any later non-start input only
produces the fixed restart reminder. -/
theorem C5_generation_failure (search : String → Except String SearchValue)
    (complete : String → Except String LMResponse) (e : String)
    (input : String) (history : History) (st : AgentState) (calls : Calls) (f : String)
    (hm : st.missing_fields = [f])
    (hc : ∀ p, complete p = Except.error e) :
    ((handle_user_message search complete input history (some st) calls).state.itinerary
        = none) ∧
    ((handle_user_message search complete input history (some st) calls).state.missing_fields
        = []) ∧
    ((handle_user_message search complete input history (some st) calls).history
        = history ++ [(some input,
            "Sorry, I encountered an error while generating the itinerary. Details: " ++ e)]) ∧
    (∀ (i2 : String) (h2 : History) (c2 : Calls), pyLower (pyStrip i2) ≠ "start" →
        (handle_user_message search complete i2 h2
            (some (handle_user_message search complete input history (some st) calls).state)
            c2).history
          = h2 ++ [(some i2, INVALID_START_MESSAGE)]) := by
  have key :
      ((handle_user_message search complete input history (some st) calls).state.itinerary
          = none) ∧
      ((handle_user_message search complete input history (some st) calls).state.missing_fields
          = []) ∧
      ((handle_user_message search complete input history (some st) calls).history
          = history ++ [(some input,
              "Sorry, I encountered an error while generating the itinerary. Details: " ++ e)]) := by
    rw [process_turn search complete input history st calls (by simp [hm])]
    have hp := process_user_input_collect
      { st with messages := st.messages ++ [Message.human input] } f [] input
      (List.getLast?_concat _) (by simpa using hm)
    simp only [travel_agent_invoke, hp, should_ask_question_or_search, eq_self_iff_true, if_true]
    rcases hsr : search (search_query_of (dictInsert st.user_info f (pyStrip input))) with e2 | v <;>
      simp only [run_search, hsr, generate_itinerary, hc, extract_last_ai,
        List.getLast?_concat, Option.getD_some] <;>
      exact ⟨trivial, trivial, trivial⟩
  refine ⟨key.1, key.2.1, key.2.2, ?_⟩
  intro i2 h2 c2 hne
  rw [invalid_turn search complete i2 h2
    (handle_user_message search complete input history (some st) calls).state c2 key.2.1 hne]

/-- C5 witness: the scenario final turn with a raising completion. -/
theorem C5_witness :
    last_field_state.missing_fields = ["accommodation"] ∧
    (∀ p, failing_complete p = Except.error "rate limit exceeded") ∧
    (((handle_user_message demo_search failing_complete "mid-range hotel" []
        (some last_field_state) ⟨0, 0⟩).state.itinerary = none) ∧
     ((handle_user_message demo_search failing_complete "mid-range hotel" []
        (some last_field_state) ⟨0, 0⟩).state.missing_fields = []) ∧
     ((handle_user_message demo_search failing_complete "mid-range hotel" []
        (some last_field_state) ⟨0, 0⟩).history
        = [] ++ [(some "mid-range hotel",
            "Sorry, I encountered an error while generating the itinerary. Details: "
              ++ "rate limit exceeded")]) ∧
     (∀ (i2 : String) (h2 : History) (c2 : Calls), pyLower (pyStrip i2) ≠ "start" →
        (handle_user_message demo_search failing_complete i2 h2
            (some (handle_user_message demo_search failing_complete "mid-range hotel" []
              (some last_field_state) ⟨0, 0⟩).state) c2).history
          = h2 ++ [(some i2, INVALID_START_MESSAGE)])) :=
  ⟨rfl, fun _ => rfl,
   C5_generation_failure demo_search failing_complete "rate limit exceeded"
     "mid-range hotel" [] last_field_state ⟨0, 0⟩ "accommodation" rfl (fun _ => rfl)⟩

/-- C1 counterexample: in the scripted session the first supplied text
is ` Paris ` (padded), yet the stored destination answer is the stripped
`Paris`, so the answers mapping does not equal the zip of the field
order with the supplied texts. -/
theorem C1_counterexample :
    dictGet c1_run.state.user_info "destination" = some "Paris" ∧
    some "Paris" ≠ some (" Paris " : String) := by
  constructor
  · decide
  · decide

/-- C1 (amended): for every start signal and five texts supplied in
order, after those five turns the answers mapping equals the field order
zipped with the whitespace-stripped forms of the five texts, and pending
is empty after exactly five turns: all five fields pending after the
start turn, one fewer after each answer, empty only at the fifth. -/
theorem C1_amended (search : String → Except String SearchValue)
    (complete : String → Except String LMResponse)
    (s a1 a2 a3 a4 a5 : String) (history : History) (st : AgentState) (calls : Calls)
    (hm : st.missing_fields = []) (hs : pyLower (pyStrip s) = "start") :
    ((handle_user_message search complete s history (some st) calls).state.missing_fields
        = ORDERED_FIELDS) ∧
    ((run_turns search complete [a1]
        (handle_user_message search complete s history (some st) calls)).state.missing_fields
        = ["budget", "activities", "duration", "accommodation"]) ∧
    ((run_turns search complete [a1, a2]
        (handle_user_message search complete s history (some st) calls)).state.missing_fields
        = ["activities", "duration", "accommodation"]) ∧
    ((run_turns search complete [a1, a2, a3]
        (handle_user_message search complete s history (some st) calls)).state.missing_fields
        = ["duration", "accommodation"]) ∧
    ((run_turns search complete [a1, a2, a3, a4]
        (handle_user_message search complete s history (some st) calls)).state.missing_fields
        = ["accommodation"]) ∧
    ((run_turns search complete [a1, a2, a3, a4, a5]
        (handle_user_message search complete s history (some st) calls)).state.missing_fields
        = []) ∧
    ((run_turns search complete [a1, a2, a3, a4, a5]
        (handle_user_message search complete s history (some st) calls)).state.user_info
        = List.zip ORDERED_FIELDS [pyStrip a1, pyStrip a2, pyStrip a3, pyStrip a4, pyStrip a5]) := by
  have h0 := start_turn search complete s history st calls hm hs
  have hbase : (handle_user_message search complete s history (some st) calls).state.missing_fields
      = ORDERED_FIELDS := by rw [h0]
  have hui : (handle_user_message search complete s history (some st) calls).state.user_info
      = [] := by rw [h0]
  have hk1 := run_turns_spec search complete [a1]
    (handle_user_message search complete s history (some st) calls)
    (by rw [hbase]; simp [ORDERED_FIELDS])
  have hk2 := run_turns_spec search complete [a1, a2]
    (handle_user_message search complete s history (some st) calls)
    (by rw [hbase]; simp [ORDERED_FIELDS])
  have hk3 := run_turns_spec search complete [a1, a2, a3]
    (handle_user_message search complete s history (some st) calls)
    (by rw [hbase]; simp [ORDERED_FIELDS])
  have hk4 := run_turns_spec search complete [a1, a2, a3, a4]
    (handle_user_message search complete s history (some st) calls)
    (by rw [hbase]; simp [ORDERED_FIELDS])
  have hk5 := run_turns_spec search complete [a1, a2, a3, a4, a5]
    (handle_user_message search complete s history (some st) calls)
    (by rw [hbase]; simp [ORDERED_FIELDS])
  refine ⟨hbase, ?_, ?_, ?_, ?_, ?_, ?_⟩
  · rw [hk1.2, hbase]; rfl
  · rw [hk2.2, hbase]; rfl
  · rw [hk3.2, hbase]; rfl
  · rw [hk4.2, hbase]; rfl
  · rw [hk5.2, hbase]; rfl
  · rw [hk5.1, hbase, hui]
    rfl

/-- C1 witness: the scripted five-answer session evaluated end to end. -/
theorem C1_witness :
    initial_agent_state.missing_fields = [] ∧
    pyLower (pyStrip "START") = "start" ∧
    (run_turns demo_search demo_complete
        [" Paris ", "moderate", "sightseeing and food", "5", "mid-range hotel"]
        (handle_user_message demo_search demo_complete "START" [(none, INITIAL_MESSAGE)]
          (some initial_agent_state) ⟨0, 0⟩)).state.missing_fields = [] ∧
    (run_turns demo_search demo_complete
        [" Paris ", "moderate", "sightseeing and food", "5", "mid-range hotel"]
        (handle_user_message demo_search demo_complete "START" [(none, INITIAL_MESSAGE)]
          (some initial_agent_state) ⟨0, 0⟩)).state.user_info
      = List.zip ORDERED_FIELDS [pyStrip " Paris ", pyStrip "moderate",
          pyStrip "sightseeing and food", pyStrip "5", pyStrip "mid-range hotel"] :=
  ⟨rfl, by decide,
   (C1_amended demo_search demo_complete "START" " Paris " "moderate" "sightseeing and food"
      "5" "mid-range hotel" [(none, INITIAL_MESSAGE)] initial_agent_state ⟨0, 0⟩
      rfl (by decide)).2.2.2.2.2.1,
   (C1_amended demo_search demo_complete "START" " Paris " "moderate" "sightseeing and food"
      "5" "mid-range hotel" [(none, INITIAL_MESSAGE)] initial_agent_state ⟨0, 0⟩
      rfl (by decide)).2.2.2.2.2.2⟩

end Wanderlust
